import Mathlib

/-!
Shallow embedding of `src/python/gudhi/point_cloud/dtm.py` (class `DTM`).

Modelling conventions:
* numpy arrays are `List (List ℝ)` (rows) and `List ℝ`; float arithmetic is
  modelled by real arithmetic, `x ** y` by `Real.rpow`.
* the Python option bag `self.params` (a dict built from `**kwargs`) is an
  association list `Params`; `dict.setdefault` is `Params.setdefault`, which
  appends the key at the end when absent, as dict insertion does.
* the stateful methods are translated by explicit state passing: `fit`
  returns the updated estimator (Python `return self`), `transform` returns
  the pair of the post-state and the produced value.  The body of
  `transform` contains no assignment to `self`, so its post-state is its
  input state.
* Python runtime failures are an explicit error type: `keyError k` is the
  `KeyError` raised by `self.params["metric"]` when the key is absent, and
  `attributeError a` is the `AttributeError` raised by reading `self.knn`
  before `fit` ever assigned it.  The unfitted `knn` attribute is the
  `none` case of an `Option` field.
* numpy basic slicing `X[:, :k]` clamps an out-of-range stop, so it is
  `List.take k` on each row.
-/

/-- Observable failures of the Python code: a `KeyError` on the params
dict, or an `AttributeError` for a never-assigned attribute. -/
inductive DTMError where
  | keyError (key : String)
  | attributeError (attr : String)
  deriving DecidableEq, Repr

/-- The option bag `self.params` (`**kwargs`), as an association list. -/
abbrev Params : Type := List (String × String)

/-- Lookup in the option bag (`params[key]` / `key in params`). -/
def Params.lookup (ps : Params) (key : String) : Option String :=
  List.lookup key ps

/-- `dict.setdefault(key, dflt)`: returns the stored value when the key is
present; otherwise inserts `(key, dflt)` (at the end, as dict insertion
does) and returns `dflt`.  The first component is the updated dict, the
second the returned value. -/
def Params.setdefault (ps : Params) (key dflt : String) : Params × String :=
  match ps.lookup key with
  | some v => (ps, v)
  | none => (ps ++ [(key, dflt)], dflt)

/-- The nearest-neighbor search algorithm: reference points → query points →
distance rows.  `from .knn import KNN` resolves outside this file, so the
algorithm is an abstract parameter of the development (spec: the provider
is an external collaborator whose search algorithm is out of scope). -/
def SearchFn : Type := List (List ℝ) → List (List ℝ) → List (List ℝ)

/-- Modelled from the spec: the external neighbor-search provider `KNN`
(`gudhi.point_cloud.knn` is not part of this source slice).  Spec §6: it is
constructed from `k`, `return_index`, `return_distance` and the option bag,
`fit` binds the reference points and returns itself, and `transform` maps
query points to distance rows produced by the (out-of-scope) search
algorithm applied to the bound reference set. -/
structure KNN where
  k : ℕ
  return_index : Bool
  return_distance : Bool
  params : Params
  ref : List (List ℝ)

/-- Modelled from the spec: `KNN(k, return_index, return_distance, **params)`
— construction binds no reference data yet. -/
def KNN.init (k : ℕ) (ri rd : Bool) (ps : Params) : KNN :=
  ⟨k, ri, rd, ps, []⟩

/-- Modelled from the spec: `knn.fit(X)` binds the reference points and
returns the provider itself. -/
def KNN.fit (nn : KNN) (X : List (List ℝ)) : KNN :=
  { nn with ref := X }

/-- Modelled from the spec: `knn.transform(X)` returns the distance rows the
search algorithm produces for the queries against the bound reference set. -/
def KNN.transform (search : SearchFn) (nn : KNN) (X : List (List ℝ)) :
    List (List ℝ) :=
  search nn.ref X

/-- The `DTM` estimator state: `__init__` stores `k`, `q` and the option
bag; the `knn` attribute does not exist until `fit` assigns it (`none`). -/
structure DTM where
  k : ℕ
  q : ℝ
  params : Params
  knn : Option KNN := none

/-- `DTM(k, q=2, **kwargs)`: stores the parameters, no validation. -/
def DTM.init (k : ℕ) (q : ℝ) (ps : Params) : DTM :=
  { k := k, q := q, params := ps, knn := none }

/-- `DTM.fit`:
`if self.params.setdefault("metric", "euclidean") != "neighbors":`
`    self.knn = KNN(self.k, return_index=False, return_distance=True, **self.params)`
`    self.knn.fit(X)`
`return self` — the returned estimator is the (mutated) `self`. -/
def DTM.fit (st : DTM) (X : List (List ℝ)) : DTM :=
  let sd := st.params.setdefault "metric" "euclidean"
  if sd.2 ≠ "neighbors" then
    { st with params := sd.1
              knn := some ((KNN.init st.k false true sd.1).fit X) }
  else
    { st with params := sd.1 }

/-- `DTM.transform`, line by line:
`if self.params["metric"] == "neighbors": distances = X[:, : self.k]`
`else: distances = self.knn.transform(X)`
`distances = distances ** self.q`
`dtm = distances.sum(-1) / self.k`
`dtm = dtm ** (1.0 / self.q)`
`return dtm`
The body assigns only the locals `distances` and `dtm`, never `self.…`, so
the post-state (first component) is the input state. -/
noncomputable def DTM.transform (search : SearchFn) (st : DTM) (X : List (List ℝ)) :
    DTM × Except DTMError (List ℝ) :=
  (st,
    match st.params.lookup "metric" with
    | none => .error (.keyError "metric")
    | some m =>
      match
        (if m = "neighbors" then
          .ok (X.map (fun row => row.take st.k))
        else
          match st.knn with
          | none => .error (.attributeError "knn")
          | some nn => .ok (nn.transform search X) :
            Except DTMError (List (List ℝ))) with
      | .error e => .error e
      | .ok distances =>
        let distances := distances.map (fun row => row.map (fun x => x ^ st.q))
        let dtm := (distances.map List.sum).map (fun s => s / (st.k : ℝ))
        let dtm := dtm.map (fun t => t ^ ((1 : ℝ) / st.q))
        .ok dtm)

/-- `DTM.fit_transform`: `return self.fit(X).transform(X)`. -/
noncomputable def DTM.fit_transform (search : SearchFn) (st : DTM) (X : List (List ℝ)) :
    DTM × Except DTMError (List ℝ) :=
  DTM.transform search (st.fit X) X

/-- The per-row DTM value the last three lines of `transform` compute from a
distance row `d`: `((Σ dᵢ^q) / k) ^ (1/q)`. -/
noncomputable def dtmRow (k : ℕ) (q : ℝ) (d : List ℝ) : ℝ :=
  ((d.map (fun x => x ^ q)).sum / (k : ℝ)) ^ ((1 : ℝ) / q)

/-! ### Lemmas about the option bag -/

theorem Params.lookup_append_single (ps : Params) (key v : String)
    (h : ps.lookup key = none) :
    Params.lookup (ps ++ [(key, v)]) key = some v := by
  induction ps with
  | nil => simp [Params.lookup, List.lookup]
  | cons p ps ih =>
    rcases p with ⟨a, b⟩
    by_cases hk : (key == a) = true
    · simp [Params.lookup, List.lookup, hk] at h
    · simp only [Params.lookup, List.cons_append, List.lookup, hk] at h ⊢
      exact ih h

theorem Params.setdefault_snd (ps : Params) (key dflt : String) :
    (ps.setdefault key dflt).2 = (ps.lookup key).getD dflt := by
  unfold Params.setdefault
  cases h : ps.lookup key <;> simp [h]

theorem Params.setdefault_lookup (ps : Params) (key dflt : String) :
    Params.lookup (ps.setdefault key dflt).1 key =
      some (ps.setdefault key dflt).2 := by
  unfold Params.setdefault
  cases h : ps.lookup key with
  | none => simp [Params.lookup_append_single ps key dflt h]
  | some v => simp [h]

/-! ### Unfolding lemmas for `DTM.transform` -/

theorem DTM.transform_fst (search : SearchFn) (st : DTM) (X : List (List ℝ)) :
    (DTM.transform search st X).1 = st := rfl

theorem DTM.transform_snd_no_metric (search : SearchFn) (st : DTM)
    (X : List (List ℝ)) (h : st.params.lookup "metric" = none) :
    (DTM.transform search st X).2 = .error (.keyError "metric") := by
  unfold DTM.transform
  rw [h]

theorem DTM.transform_snd_neighbors (search : SearchFn) (st : DTM)
    (X : List (List ℝ)) (h : st.params.lookup "metric" = some "neighbors") :
    (DTM.transform search st X).2 =
      .ok ((X.map (fun row => row.take st.k)).map (dtmRow st.k st.q)) := by
  unfold DTM.transform
  rw [h]
  simp [dtmRow, List.map_map, Function.comp]

theorem DTM.transform_snd_knn (search : SearchFn) (st : DTM)
    (X : List (List ℝ)) (m : String) (nn : KNN)
    (hm : st.params.lookup "metric" = some m) (hmn : m ≠ "neighbors")
    (hnn : st.knn = some nn) :
    (DTM.transform search st X).2 =
      .ok ((nn.transform search X).map (dtmRow st.k st.q)) := by
  unfold DTM.transform
  rw [hm, hnn]
  simp [hmn, dtmRow, List.map_map, Function.comp]

theorem DTM.transform_snd_unfitted (search : SearchFn) (st : DTM)
    (X : List (List ℝ)) (m : String)
    (hm : st.params.lookup "metric" = some m) (hmn : m ≠ "neighbors")
    (hnn : st.knn = none) :
    (DTM.transform search st X).2 = .error (.attributeError "knn") := by
  unfold DTM.transform
  rw [hm, hnn]
  simp [hmn]

/-! ### Lemmas about `DTM.fit` -/

theorem DTM.fit_params_lookup (st : DTM) (X : List (List ℝ)) :
    ((st.fit X).params).lookup "metric" =
      some ((st.params.lookup "metric").getD "euclidean") := by
  unfold DTM.fit
  have h := Params.setdefault_lookup st.params "metric" "euclidean"
  rw [Params.setdefault_snd] at h
  dsimp only
  split <;> simpa using h

/-! ### Nonnegativity of the per-row value -/

theorem dtm_base_nonneg (k : ℕ) (q : ℝ) (d : List ℝ)
    (hd : ∀ x ∈ d, 0 ≤ x) :
    0 ≤ (d.map (fun x => x ^ q)).sum / (k : ℝ) := by
  apply div_nonneg _ (Nat.cast_nonneg k)
  apply List.sum_nonneg
  intro y hy
  rcases List.mem_map.mp hy with ⟨x, hx, rfl⟩
  exact Real.rpow_nonneg (hd x hx) _

theorem dtmRow_nonneg (k : ℕ) (q : ℝ) (d : List ℝ)
    (hd : ∀ x ∈ d, 0 ≤ x) : 0 ≤ dtmRow k q d :=
  Real.rpow_nonneg (dtm_base_nonneg k q d hd) _

/-! ### Power-mean monotonicity in the order `q` -/

theorem sum_map_get (d : List ℝ) (f : ℝ → ℝ) :
    (d.map f).sum = ∑ i : Fin d.length, f (d.get i) := by
  conv_lhs => rw [← List.ofFn_get d, List.map_ofFn]
  rw [List.sum_ofFn]
  rfl

theorem dtmRow_mono (k : ℕ) (q Q : ℝ) (d : List ℝ) (hk : 0 < k)
    (hlen : d.length = k) (hd : ∀ x ∈ d, 0 ≤ x) (hq : 0 < q) (hqQ : q ≤ Q) :
    dtmRow k q d ≤ dtmRow k Q d := by
  rcases eq_or_lt_of_le hqQ with rfl | hlt
  · exact le_refl _
  have hQ : 0 < Q := lt_trans hq hlt
  have hk0 : (k : ℝ) ≠ 0 := Nat.cast_ne_zero.mpr hk.ne'
  have hdget : ∀ i : Fin d.length, 0 ≤ d.get i := fun i => hd _ (d.get_mem i.1 i.2)
  have hw : ∀ i ∈ (Finset.univ : Finset (Fin d.length)),
      (0 : ℝ) ≤ (k : ℝ)⁻¹ := fun i _ => inv_nonneg.mpr (Nat.cast_nonneg k)
  have hw' : ∑ _i ∈ (Finset.univ : Finset (Fin d.length)), ((k : ℝ)⁻¹) = 1 := by
    simp [Finset.sum_const, Finset.card_univ, hlen, nsmul_eq_mul]
    field_simp
  have hz : ∀ i ∈ (Finset.univ : Finset (Fin d.length)),
      (0 : ℝ) ≤ d.get i ^ q := fun i _ => Real.rpow_nonneg (hdget i) q
  have hp : 1 ≤ Q / q := (one_le_div hq).mpr hqQ
  have key := Real.rpow_arith_mean_le_arith_mean_rpow
    (Finset.univ : Finset (Fin d.length)) (fun _ => (k : ℝ)⁻¹)
    (fun i => d.get i ^ q) hw hw' hz hp
  have hA : ∑ i ∈ (Finset.univ : Finset (Fin d.length)),
      (k : ℝ)⁻¹ * d.get i ^ q = (d.map (fun x => x ^ q)).sum / (k : ℝ) := by
    rw [← Finset.mul_sum, ← sum_map_get d (fun x => x ^ q), inv_mul_eq_div]
  have hB : ∑ i ∈ (Finset.univ : Finset (Fin d.length)),
      (k : ℝ)⁻¹ * (d.get i ^ q) ^ (Q / q) =
        (d.map (fun x => x ^ Q)).sum / (k : ℝ) := by
    have hzp : ∀ i : Fin d.length,
        ((d.get i ^ q : ℝ)) ^ (Q / q) = d.get i ^ Q := by
      intro i
      rw [← Real.rpow_mul (hdget i)]
      congr 1
      field_simp
    calc ∑ i ∈ (Finset.univ : Finset (Fin d.length)),
          (k : ℝ)⁻¹ * (d.get i ^ q) ^ (Q / q)
        = ∑ i ∈ (Finset.univ : Finset (Fin d.length)),
          (k : ℝ)⁻¹ * d.get i ^ Q := by
          apply Finset.sum_congr rfl
          intro i _
          rw [hzp i]
      _ = (d.map (fun x => x ^ Q)).sum / (k : ℝ) := by
          rw [← Finset.mul_sum, ← sum_map_get d (fun x => x ^ Q), inv_mul_eq_div]
  rw [hA, hB] at key
  have hA0 : 0 ≤ (d.map (fun x => x ^ q)).sum / (k : ℝ) :=
    dtm_base_nonneg k q d hd
  have hexp : (1 : ℝ) / q = (Q / q) * (1 / Q) := by
    field_simp
  rw [dtmRow, dtmRow, hexp, Real.rpow_mul hA0]
  exact Real.rpow_le_rpow (Real.rpow_nonneg hA0 _) key
    (le_of_lt (by positivity))

theorem DTM.transform_no_keyError_of_lookup (search : SearchFn) (st : DTM)
    (X : List (List ℝ)) (m : String)
    (hm : st.params.lookup "metric" = some m) :
    (DTM.transform search st X).2 ≠ .error (.keyError "metric") := by
  by_cases hmn : m = "neighbors"
  · subst hmn
    rw [DTM.transform_snd_neighbors search st X hm]
    simp
  · cases hnn : st.knn with
    | none =>
      rw [DTM.transform_snd_unfitted search st X m hm hmn hnn]
      simp
    | some nn =>
      rw [DTM.transform_snd_knn search st X m nn hm hmn hnn]
      simp

/-! ### The claims -/

/-- C1: for every query point whose neighbor-distance vector
`d = (d_1, ..., d_k)` has been obtained — from the fitted search instance
(`self.knn.transform(X)`) or by slicing the first `k` columns in
`"neighbors"` mode — `transform` returns `((1/k) · Σᵢ dᵢ^q)^(1/q)` for that
point, with `k` and `q` the stored parameters. -/
theorem DTM.transform_powerMean_formula (search : SearchFn) (st : DTM)
    (X : List (List ℝ)) :
    (st.params.lookup "metric" = some "neighbors" →
      (DTM.transform search st X).2 =
        .ok ((X.map (fun row => row.take st.k)).map
          (fun d => ((1 / (st.k : ℝ)) * (d.map (fun x => x ^ st.q)).sum) ^
            ((1 : ℝ) / st.q)))) ∧
    (∀ m nn, st.params.lookup "metric" = some m → m ≠ "neighbors" →
      st.knn = some nn →
      (DTM.transform search st X).2 =
        .ok ((KNN.transform search nn X).map
          (fun d => ((1 / (st.k : ℝ)) * (d.map (fun x => x ^ st.q)).sum) ^
            ((1 : ℝ) / st.q)))) := by
  constructor
  · intro h
    rw [DTM.transform_snd_neighbors search st X h]
    unfold dtmRow
    simp only [one_div, inv_mul_eq_div]
  · intro m nn hm hmn hnn
    rw [DTM.transform_snd_knn search st X m nn hm hmn hnn]
    unfold dtmRow
    simp only [one_div, inv_mul_eq_div]

/-- C1, witness: `k = 1`, `q = 1`, `"neighbors"` mode, one query row `[3]`;
the returned value is `((1/1) · 3^1)^(1/1) = 3`. -/
theorem DTM.transform_powerMean_formula_witness :
    (DTM.transform (fun _ _ => []) (DTM.init 1 1 [("metric", "neighbors")])
      [[3]]).2 = .ok [3] := by
  have h := (DTM.transform_powerMean_formula (fun _ _ => [])
    (DTM.init 1 1 [("metric", "neighbors")]) [[3]]).1 rfl
  rw [h]
  norm_num [DTM.init, Real.rpow_one]

/-- C2: `fit_transform(X)` is exactly `fit(X)` followed by `transform(X)` on
the same estimator; `fit` returns the estimator itself (the post-`fit`
state), so the composition goes through it in every metric mode. -/
theorem DTM.fit_transform_eq_fit_then_transform (search : SearchFn)
    (st : DTM) (X : List (List ℝ)) :
    DTM.fit_transform search st X = DTM.transform search (st.fit X) X ∧
    (DTM.fit_transform search st X).2 =
      (DTM.transform search (st.fit X) X).2 :=
  ⟨rfl, rfl⟩

/-- C3: in `"neighbors"` mode `transform` uses exactly the first `k` columns
of the input (`X[:, :k]`, i.e. `take k` on each row) and ignores the rest;
concretely, for `k = 2`, `q = 1` and row `[1, 3, 99]` it returns `2`. -/
theorem DTM.transform_neighbors_take_k (search : SearchFn) (st : DTM)
    (X : List (List ℝ)) :
    (st.params.lookup "metric" = some "neighbors" →
      (DTM.transform search st X).2 =
        .ok ((X.map (fun row => row.take st.k)).map (dtmRow st.k st.q))) ∧
    (DTM.transform (fun _ _ => []) (DTM.init 2 1 [("metric", "neighbors")])
      [[1, 3, 99]]).2 = .ok [2] := by
  constructor
  · intro h
    exact DTM.transform_snd_neighbors search st X h
  · rw [DTM.transform_snd_neighbors (fun _ _ => [])
      (DTM.init 2 1 [("metric", "neighbors")]) [[1, 3, 99]] rfl]
    norm_num [dtmRow, DTM.init, Real.rpow_one, Real.one_rpow]

/-- C3, witness: `k = 2`, `q = 1`, row `[2, 4, 100]`: the third column is
ignored and the value is `(2 + 4)/2 = 3`. -/
theorem DTM.transform_neighbors_take_k_witness :
    (DTM.transform (fun _ _ => []) (DTM.init 2 1 [("metric", "neighbors")])
      [[2, 4, 100]]).2 = .ok [3] := by
  have h := (DTM.transform_neighbors_take_k (fun _ _ => [])
    (DTM.init 2 1 [("metric", "neighbors")]) [[2, 4, 100]]).1 rfl
  rw [h]
  norm_num [dtmRow, DTM.init, Real.rpow_one]

/-- C9: `transform` has no side effects: the post-state is the input state
(every field unchanged), and calling it again on the same inputs returns
the same result. -/
theorem DTM.transform_no_side_effects (search : SearchFn) (st : DTM)
    (X : List (List ℝ)) :
    (DTM.transform search st X).1 = st ∧
    ((DTM.transform search st X).1).k = st.k ∧
    ((DTM.transform search st X).1).q = st.q ∧
    ((DTM.transform search st X).1).params = st.params ∧
    ((DTM.transform search st X).1).knn = st.knn ∧
    DTM.transform search ((DTM.transform search st X).1) X =
      DTM.transform search st X :=
  ⟨rfl, rfl, rfl, rfl, rfl, rfl⟩

/-- C10: after any `fit`, the params mapping contains the key `"metric"`
(with the default `"euclidean"` inserted when it was not supplied at
construction), so the `params["metric"]` lookup in `transform` never fails
on a fitted estimator. -/
theorem DTM.fit_inserts_metric (search : SearchFn) (st : DTM)
    (X Y : List (List ℝ)) :
    ((st.fit X).params.lookup "metric" =
      some ((st.params.lookup "metric").getD "euclidean")) ∧
    (st.params.lookup "metric" = none →
      (st.fit X).params.lookup "metric" = some "euclidean") ∧
    (DTM.transform search (st.fit X) Y).2 ≠ .error (.keyError "metric") := by
  refine ⟨DTM.fit_params_lookup st X, ?_, ?_⟩
  · intro h
    rw [DTM.fit_params_lookup st X, h]
    rfl
  · exact DTM.transform_no_keyError_of_lookup search _ Y _
      (DTM.fit_params_lookup st X)

/-- C4, counterexample: `"neighbors"` mode with `k = 2`, `q = 1` and a
single one-column row `[5]`.  numpy's `X[:, :2]` clamps to the one existing
column, so `transform` does not fail: it returns the value
`(5^1 / 2)^(1/1) = 5/2` instead of raising anything. -/
theorem DTM.transform_neighbors_short_row_returns :
    (DTM.transform (fun _ _ => []) (DTM.init 2 1 [("metric", "neighbors")])
      [[5]]).2 = .ok [5 / 2] := by
  rw [DTM.transform_snd_neighbors (fun _ _ => [])
    (DTM.init 2 1 [("metric", "neighbors")]) [[5]] rfl]
  norm_num [dtmRow, DTM.init, Real.rpow_one]

/-- C4, amended: in `"neighbors"` mode, an input with fewer than `k`
columns does not fail; the slice `X[:, :k]` clamps, so every available
column is used and the sum is still divided by `k`. -/
theorem DTM.transform_neighbors_short_rows_ok (search : SearchFn)
    (st : DTM) (X : List (List ℝ))
    (h : st.params.lookup "metric" = some "neighbors")
    (hrows : ∀ row ∈ X, row.length ≤ st.k) :
    (DTM.transform search st X).2 = .ok (X.map (dtmRow st.k st.q)) := by
  rw [DTM.transform_snd_neighbors search st X h]
  congr 1
  rw [List.map_map]
  apply List.map_congr_left
  intro row hrow
  simp [Function.comp, List.take_of_length_le (hrows row hrow)]

/-- C4, witness: the amended statement at `k = 2`, `q = 1`, input `[[5]]`:
the result is `5/2`, not an error. -/
theorem DTM.transform_neighbors_short_rows_ok_witness :
    (DTM.transform (fun _ _ => []) (DTM.init 2 1 [("metric", "neighbors")])
      [[5]]).2 = .ok [dtmRow 2 1 [5]] ∧ dtmRow 2 1 [5] = 5 / 2 := by
  constructor
  · have h := DTM.transform_neighbors_short_rows_ok (fun _ _ => [])
      (DTM.init 2 1 [("metric", "neighbors")]) [[5]] rfl
      (by norm_num [DTM.init])
    simpa [DTM.init] using h
  · norm_num [dtmRow, Real.rpow_one]

/-- C5, counterexample: an estimator built without a `"metric"` option and
never fitted.  `transform` does fail, but at `self.params["metric"]` — a
missing-key error on the option bag — not with the missing-search-instance
(`self.knn`) failure the claim names. -/
theorem DTM.transform_unfitted_keyError_example :
    (DTM.transform (fun _ _ => []) (DTM.init 2 2 []) [[0, 0]]).2 =
      .error (.keyError "metric") ∧
    (DTM.transform (fun _ _ => []) (DTM.init 2 2 []) [[0, 0]]).2 ≠
      .error (.attributeError "knn") := by
  have h := DTM.transform_snd_no_metric (fun _ _ => [])
    (DTM.init 2 2 []) [[0, 0]] rfl
  refine ⟨h, ?_⟩
  rw [h]
  simp

/-- C5, amended: with `fit` never called (`knn` unset), `transform` fails
on every input; the failure is the missing-search-instance error exactly
when `"metric"` was supplied at construction with a value other than
`"neighbors"`, and a missing-key error on the option bag when `"metric"`
was not supplied at all. -/
theorem DTM.transform_unfitted_errors (search : SearchFn) (st : DTM)
    (X : List (List ℝ)) (h : st.knn = none) :
    (st.params.lookup "metric" = none →
      (DTM.transform search st X).2 = .error (.keyError "metric")) ∧
    (∀ m, st.params.lookup "metric" = some m → m ≠ "neighbors" →
      (DTM.transform search st X).2 = .error (.attributeError "knn")) := by
  constructor
  · intro hm
    exact DTM.transform_snd_no_metric search st X hm
  · intro m hm hmn
    exact DTM.transform_snd_unfitted search st X m hm hmn h

/-- C5, witness: both unfitted failure shapes at concrete estimators — no
`"metric"` option gives the missing-key error, an explicit
`"euclidean"` metric gives the missing-`knn` error. -/
theorem DTM.transform_unfitted_errors_witness :
    (DTM.transform (fun _ _ => []) (DTM.init 2 2 []) [[1]]).2 =
      .error (.keyError "metric") ∧
    (DTM.transform (fun _ _ => [])
      (DTM.init 2 2 [("metric", "euclidean")]) [[1]]).2 =
      .error (.attributeError "knn") :=
  ⟨(DTM.transform_unfitted_errors (fun _ _ => [])
      (DTM.init 2 2 []) [[1]] rfl).1 rfl,
   (DTM.transform_unfitted_errors (fun _ _ => [])
      (DTM.init 2 2 [("metric", "euclidean")]) [[1]] rfl).2
      "euclidean" rfl (by decide)⟩

/-- C6: whenever `transform` succeeds on nonnegative neighbor distances
(and the spec's shape contract for the provider: one distance row per
query), the output has one value per query row, every value is
nonnegative, and the values are in input order: entry `i` of the output is
the DTM of distance row `i` — the sliced row `i` of the input in
`"neighbors"` mode, row `i` of the provider's output otherwise. -/
theorem DTM.transform_length_nonneg (search : SearchFn) (st : DTM)
    (X : List (List ℝ)) (ys : List ℝ) (hq : 0 < st.q)
    (hok : (DTM.transform search st X).2 = .ok ys)
    (hprov : ∀ nn, st.knn = some nn →
      (KNN.transform search nn X).length = X.length)
    (hprovd : ∀ nn, st.knn = some nn →
      ∀ row ∈ KNN.transform search nn X, ∀ x ∈ row, 0 ≤ x)
    (hXd : st.params.lookup "metric" = some "neighbors" →
      ∀ row ∈ X, ∀ x ∈ row, 0 ≤ x) :
    ys.length = X.length ∧ (∀ y ∈ ys, 0 ≤ y) ∧
    (st.params.lookup "metric" = some "neighbors" →
      ∀ i : ℕ, ys[i]? =
        (X[i]?).map (fun row => dtmRow st.k st.q (row.take st.k))) ∧
    (∀ m nn, st.params.lookup "metric" = some m → m ≠ "neighbors" →
      st.knn = some nn →
      ∀ i : ℕ, ys[i]? =
        ((KNN.transform search nn X)[i]?).map (dtmRow st.k st.q)) := by
  cases hm : st.params.lookup "metric" with
  | none =>
    rw [DTM.transform_snd_no_metric search st X hm] at hok
    exact absurd hok (by simp)
  | some m =>
    by_cases hmn : m = "neighbors"
    · subst hmn
      rw [DTM.transform_snd_neighbors search st X hm] at hok
      simp only [Except.ok.injEq] at hok
      subst hok
      refine ⟨by simp, ?_, ?_, ?_⟩
      · intro y hy
        simp only [List.mem_map] at hy
        obtain ⟨row, hrow, rfl⟩ := hy
        obtain ⟨row0, hrow0, rfl⟩ := hrow
        apply dtmRow_nonneg
        intro x hx
        exact hXd hm row0 hrow0 x (List.take_subset _ _ hx)
      · intro _ i
        simp [List.getElem?_map, Option.map_map, Function.comp_def]
      · intro m' nn hm' hmn' hnn
        simp only [Option.some.injEq] at hm'
        exact absurd hm'.symm hmn'
    · cases hnn : st.knn with
      | none =>
        rw [DTM.transform_snd_unfitted search st X m hm hmn hnn] at hok
        exact absurd hok (by simp)
      | some nn =>
        rw [DTM.transform_snd_knn search st X m nn hm hmn hnn] at hok
        simp only [Except.ok.injEq] at hok
        subst hok
        refine ⟨by simp [hprov nn hnn], ?_, ?_, ?_⟩
        · intro y hy
          simp only [List.mem_map] at hy
          obtain ⟨row, hrow, rfl⟩ := hy
          exact dtmRow_nonneg _ _ _ (fun x hx => hprovd nn hnn row hrow x hx)
        · intro hm'
          simp only [Option.some.injEq] at hm'
          exact absurd hm' hmn
        · intro m' nn' hm' hmn' hnn'
          simp only [Option.some.injEq] at hnn'
          subst hnn'
          intro i
          simp [List.getElem?_map]

/-- C6, witness: the `"neighbors"` example `k = 2`, `q = 1`, one query row
`[1, 3]` producing `[2]`: one output per row, the value is `≥ 0`, and
entry `0` of the output is the DTM of input row `0`, namely `2`. -/
theorem DTM.transform_length_nonneg_witness :
    (([2] : List ℝ).length = ([[(1 : ℝ), 3]] : List (List ℝ)).length ∧
      ∀ y ∈ ([2] : List ℝ), 0 ≤ y) ∧
    ([2] : List ℝ)[0]? = some 2 := by
  have hok : (DTM.transform (fun _ _ => [])
      (DTM.init 2 1 [("metric", "neighbors")]) [[1, 3]]).2 = .ok [2] := by
    rw [DTM.transform_snd_neighbors (fun _ _ => [])
      (DTM.init 2 1 [("metric", "neighbors")]) [[1, 3]] rfl]
    norm_num [dtmRow, DTM.init, Real.rpow_one, Real.one_rpow]
  have h := DTM.transform_length_nonneg (fun _ _ => [])
    (DTM.init 2 1 [("metric", "neighbors")]) [[1, 3]] [2]
    (by norm_num [DTM.init]) hok
    (fun nn h => Option.noConfusion h)
    (fun nn h => Option.noConfusion h)
    (by
      intro _ row hrow x hx
      simp only [List.mem_singleton] at hrow
      subst hrow
      simp only [List.mem_cons, List.mem_singleton, List.not_mem_nil,
        or_false] at hx
      rcases hx with rfl | rfl <;> norm_num)
  refine ⟨⟨h.1, h.2.1⟩, ?_⟩
  have h0 := h.2.2.1 rfl 0
  rw [h0]
  norm_num [dtmRow, DTM.init, Real.rpow_one, Real.one_rpow]

/-- C7: holding a vector of `k` nonnegative neighbor distances fixed, the
value `transform` computes in `"neighbors"` mode is monotone non-decreasing
in the order `q` (power-mean monotonicity). -/
theorem DTM.transform_monotone_in_q (search : SearchFn) (k : ℕ) (q Q : ℝ)
    (ps : Params) (d : List ℝ) (hk : 0 < k) (hlen : d.length = k)
    (hd : ∀ x ∈ d, 0 ≤ x) (hq : 0 < q) (hqQ : q ≤ Q)
    (hps : Params.lookup ps "metric" = some "neighbors") :
    (DTM.transform search (DTM.init k q ps) [d]).2 = .ok [dtmRow k q d] ∧
    (DTM.transform search (DTM.init k Q ps) [d]).2 = .ok [dtmRow k Q d] ∧
    dtmRow k q d ≤ dtmRow k Q d := by
  refine ⟨?_, ?_, dtmRow_mono k q Q d hk hlen hd hq hqQ⟩
  · rw [DTM.transform_snd_neighbors search (DTM.init k q ps) [d] hps]
    simp [DTM.init, List.take_of_length_le hlen.le]
  · rw [DTM.transform_snd_neighbors search (DTM.init k Q ps) [d] hps]
    simp [DTM.init, List.take_of_length_le hlen.le]

/-- C7, witness: `d = [1, 3]`, `k = 2`: the order-1 value is `2` and it is
at most the order-2 value. -/
theorem DTM.transform_monotone_in_q_witness :
    (DTM.transform (fun _ _ => []) (DTM.init 2 1 [("metric", "neighbors")])
      [[1, 3]]).2 = .ok [dtmRow 2 1 [1, 3]] ∧
    dtmRow 2 1 [1, 3] = 2 ∧ dtmRow 2 1 [1, 3] ≤ dtmRow 2 2 [1, 3] := by
  have h := DTM.transform_monotone_in_q (fun _ _ => []) 2 1 2
    [("metric", "neighbors")] [1, 3] (by norm_num) rfl
    (by
      intro x hx
      simp only [List.mem_cons, List.mem_singleton, List.not_mem_nil,
        or_false] at hx
      rcases hx with rfl | rfl <;> norm_num)
    (by norm_num) (by norm_num) rfl
  exact ⟨h.1, by norm_num [dtmRow, Real.rpow_one, Real.one_rpow], h.2.2⟩

/-- C8, counterexample: `k = 2`, `q = -1` (non-positive) in `"neighbors"`
mode.  Construction stores the values unvalidated, `fit` returns the
estimator unchanged without raising anything, and `transform` goes on to
compute a DTM value: `((1^{-1} + 2^{-1})/2)^{1/(-1)} = 4/3`.  No
InvalidParameterError exists anywhere in the code. -/
theorem DTM.fit_no_validation_example :
    DTM.fit (DTM.init 2 (-1) [("metric", "neighbors")]) [[1, 2]] =
      DTM.init 2 (-1) [("metric", "neighbors")] ∧
    (DTM.transform (fun _ _ => [])
      (DTM.init 2 (-1) [("metric", "neighbors")]) [[1, 2]]).2 =
      .ok [4 / 3] := by
  constructor
  · rfl
  · rw [DTM.transform_snd_neighbors (fun _ _ => [])
      (DTM.init 2 (-1) [("metric", "neighbors")]) [[1, 2]] rfl]
    norm_num [dtmRow, DTM.init, Real.rpow_neg_one, Real.one_rpow]

/-- C8, amended: neither construction nor `fit` validates `k` or `q`: the
parameters are stored exactly as given, no InvalidParameterError exists,
and (shown here in `"neighbors"` mode, where `fit` is the identity on the
state) `fit` completes normally; for strictly negative `q`, `transform`
then still returns a value, the degenerate arithmetic simply propagating.
(At `q = 0` the code fails too late and differently — a ZeroDivisionError
inside `transform` at `1.0 / self.q`, after construction and `fit` have
already succeeded; the real-arithmetic embedding totalizes that division,
so the value statement here is deliberately restricted to `q < 0`.) -/
theorem DTM.init_fit_no_validation (search : SearchFn) (k : ℕ) (q : ℝ)
    (ps : Params) (X : List (List ℝ)) (hq : q < 0)
    (hps : Params.lookup ps "metric" = some "neighbors") :
    (DTM.init k q ps).k = k ∧ (DTM.init k q ps).q = q ∧
    (DTM.init k q ps).params = ps ∧
    DTM.fit (DTM.init k q ps) X = DTM.init k q ps ∧
    ∃ ys, (DTM.transform search (DTM.init k q ps) X).2 = .ok ys := by
  refine ⟨rfl, rfl, rfl, ?_, ?_⟩
  · unfold DTM.fit
    dsimp only [DTM.init]
    unfold Params.setdefault
    rw [hps]
    simp [DTM.init]
  · exact ⟨_, DTM.transform_snd_neighbors search (DTM.init k q ps) X hps⟩

/-- C8, witness: the amended statement at `k = 2`, `q = -1`. -/
theorem DTM.init_fit_no_validation_witness :
    DTM.fit (DTM.init 2 (-1) [("metric", "neighbors")]) [[1, 2]] =
      DTM.init 2 (-1) [("metric", "neighbors")] ∧
    ∃ ys, (DTM.transform (fun _ _ => [])
      (DTM.init 2 (-1) [("metric", "neighbors")]) [[1, 2]]).2 = .ok ys := by
  have h := DTM.init_fit_no_validation (fun _ _ => []) 2 (-1)
    [("metric", "neighbors")] [[1, 2]] (by norm_num) rfl
  exact ⟨h.2.2.2.1, h.2.2.2.2⟩
